import Mathlib

/-!
Shallow embedding of the node-bootstrap layer of `acuity-substrate-old`:
the functions `new_partial`, `new_full` and `new_light` from
`src/service/src/lib.rs`, and the grandpa-pause extraction from the CLI
`run` entry point in `src/cli/src/command.rs`.

Each bootstrap function is embedded as a pure Lean function from its
configuration inputs, plus an `Env` record that injects the success or
failure of every fallible external call (`?` operator in the source), to a
pair of (a) the ordered trace of observable bootstrap actions performed
(constructions, task spawns, network start) and (b) an `Except` value
mirroring the Rust `Result` returned to the caller, carrying a record of
what was handed to each subsystem (block imports, keystore handles,
voting rule, discovery parameters).  Opaque external objects (keystore
pointer, shared voter state, shared authority set, justification stream,
peer ids, node names) are embedded as distinct `Nat` identifiers so that
"the same handle was passed here and there" is value equality.
-/

set_option linter.unusedVariables false

namespace AcuityService

/-- Operating mode of the node (`service::Role`, re-exported by
`src/service/src/lib.rs`): full node, light client, sentry, or authority with
its sentry-node list (peer identifiers embedded as `Nat`). -/
inductive Role
  | full
  | light
  | sentry (observerAllowed : Bool)
  | authority (sentryNodes : List Nat)
  deriving DecidableEq

/-- `Role::is_authority`: true exactly for `Authority { .. }`. -/
def Role.is_authority : Role → Bool
  | .authority _ => true
  | _ => false

/-- `Role::is_network_authority`: true for `Authority { .. }` and `Sentry { .. }`. -/
def Role.is_network_authority : Role → Bool
  | .authority _ => true
  | .sentry _ => true
  | _ => false

/-- The slice of `service::Configuration` read by the bootstrap code in
`src/service/src/lib.rs`: role, presence of a prometheus registry,
offchain-worker flag, disable-GRANDPA flag, force-authoring flag, and the
node display name (embedded as a `Nat`). -/
structure Configuration where
  role : Role
  prometheusConfig : Bool
  offchainWorkerEnabled : Bool
  disableGrandpa : Bool
  forceAuthoring : Bool
  nodeName : Nat
  deriving DecidableEq

/-- A layered block-import target.  `base` is the storage/client import;
`grandpa inner` is `grandpa::block_import_with_authority_set_hard_forks`
wrapping `inner`; `lightGrandpa inner` is `grandpa::light_block_import`
wrapping `inner`; `babe inner` is `babe::block_import` wrapping `inner`.
Clones of one import share the same value. -/
inductive BlockImportNode
  | base
  | grandpa (inner : BlockImportNode)
  | lightGrandpa (inner : BlockImportNode)
  | babe (inner : BlockImportNode)
  deriving DecidableEq

/-- The authorship-capability check handed to `babe::import_queue`:
`CanAuthorWithNativeVersion` on the full path, `NeverCanAuthor` on the
light path. -/
inductive CanAuthorCheck
  | nativeVersion
  | neverCanAuthor
  deriving DecidableEq

/-- Arguments of the `babe::import_queue` call: the block import it
delegates to, the optional justification import, the optional
finality-proof import, and the authorship-capability check. -/
structure ImportQueueRec where
  blockImport : BlockImportNode
  justificationImport : Option BlockImportNode
  finalityProofImport : Option BlockImportNode
  canAuthorWith : CanAuthorCheck
  deriving DecidableEq

/-- Identifier of the keystore pointer returned by `new_full_parts`. -/
def keystorePtrId : Nat := 1

/-- Identifier of the `SharedVoterState` created in `new_partial`. -/
def sharedVoterStateId : Nat := 2

/-- Identifier of the shared authority set held by the grandpa `LinkHalf`. -/
def grandpaAuthoritySetId : Nat := 3

/-- Identifier of the justification stream held by the grandpa `LinkHalf`. -/
def grandpaJustificationStreamId : Nat := 4

/-- The grandpa `LinkHalf` produced by
`grandpa::block_import_with_authority_set_hard_forks`, reduced to the two
shared handles the bootstrap copies out of it. -/
structure LinkHalf where
  sharedAuthoritySet : Nat
  justificationStream : Nat
  deriving DecidableEq

/-- Handles captured by the deferred RPC-extension-builder closure in
`new_partial` (`rpc_extensions_builder`, lines 183-210). -/
structure RpcDeps where
  keystore : Nat
  sharedVoterState : Nat
  sharedAuthoritySet : Nat
  justificationStream : Nat
  deriving DecidableEq

/-- The parts of the `PartialComponents` aggregate returned by `new_partial`
that the claims are about: the import-queue arguments, the `import_setup`
block import (handed on to the BABE authoring loop), the grandpa link, the
shared voter state, and the RPC dependency bundle. -/
structure PartialComponentsRec where
  importQueue : ImportQueueRec
  importSetupBlockImport : BlockImportNode
  link : LinkHalf
  sharedVoterState : Nat
  rpcDeps : RpcDeps
  deriving DecidableEq

/-- Success or failure of each fallible external call (`?` in the source);
one flag per call site, shared by the full and light paths. -/
structure Env where
  registryOk : Bool
  newFullPartsOk : Bool
  grandpaBlockImportOk : Bool
  babeConfigOk : Bool
  babeBlockImportOk : Bool
  importQueueOk : Bool
  buildNetworkOk : Bool
  spawnTasksOk : Bool
  startBabeOk : Bool
  runGrandpaVoterOk : Bool
  setupDisabledGrandpaOk : Bool
  newLightPartsOk : Bool
  lightGrandpaBlockImportOk : Bool
  deriving DecidableEq

/-- The environment in which every external call succeeds. -/
def Env.allOk : Env :=
  ⟨true, true, true, true, true, true, true, true, true, true, true, true, true⟩

/-- The construction error returned when the corresponding step fails. -/
inductive BuildError
  | registry
  | newFullParts
  | grandpaBlockImport
  | babeConfig
  | babeBlockImport
  | importQueue
  | buildNetwork
  | spawnTasks
  | startBabe
  | runGrandpaVoter
  | setupDisabledGrandpa
  | newLightParts
  | lightGrandpaBlockImport
  deriving DecidableEq

/-- Background tasks spawned by name in the source. -/
inductive TaskName
  | babe
  | grandpaVoter
  | authorityDiscoveryWorker
  deriving DecidableEq

/-- Whether a task is spawned through `spawn_essential_handle` (failure kills
the process) or through the plain `spawn_handle`. -/
inductive TaskKind
  | essential
  | normal
  deriving DecidableEq

/-- Observable bootstrap actions, in the order the source performs them. -/
inductive Event
  | constructGrandpaBlockImport
  | constructLightGrandpaBlockImport
  | constructBabeBlockImport
  | constructImportQueue
  | buildNetwork
  | buildOffchainWorkers
  | spawnTasks
  | spawn (kind : TaskKind) (name : TaskName)
  | setupDisabledGrandpa
  | startNetwork
  deriving DecidableEq

/-- The GRANDPA voting-rule set selected in `new_full`
(src/service/src/lib.rs lines 392-406): the default builder extended with
`PauseAfterBlockFor(block, delay)` when a pause pair is configured, the
plain default builder otherwise. -/
inductive VotingRule
  | default
  | pauseAfterBlockFor (block : Nat) (delay : Nat)
  deriving DecidableEq

/-- The `match grandpa_pause` expression choosing the voting rule in
`new_full` (src/service/src/lib.rs lines 392-406). -/
def installedVotingRule : Option (Nat × Nat) → VotingRule
  | some (block, delay) => .pauseAfterBlockFor block delay
  | none => .default

/-- A voting decision of the pause rule: cast votes normally, or pause. -/
inductive VoteDecision
  | vote
  | pause
  deriving DecidableEq

/-- Modelled from the spec: the per-finalized-height decision of the
`grandpa_support::PauseAfterBlockFor` voting rule.  The rule is declared via
`pub mod grandpa_support` in src/service/src/lib.rs but the module file is
not among the provided sources, so its decision is taken from spec section
4.4: `Pause` iff `pause_at_height ≤ finalized_height <
pause_at_height + resume_after_n_blocks`, `Vote` otherwise; the default
rule set (no pause configured) always allows voting. -/
def VotingRule.decide : VotingRule → Nat → VoteDecision
  | .default, _ => .vote
  | .pauseAfterBlockFor block delay, finalized =>
      if block ≤ finalized ∧ finalized < block + delay then .pause else .vote

/-- Arguments of `babe::BabeParams` that the claims are about: the keystore
handle, the block import handed to the authoring loop, and the
force-authoring flag (src/service/src/lib.rs lines 311-322). -/
structure BabeParamsRec where
  keystore : Nat
  blockImport : BlockImportNode
  forceAuthoring : Bool
  deriving DecidableEq

/-- The authority-discovery role derived in `new_full`
(src/service/src/lib.rs lines 330-342). -/
inductive ADRole
  | authority (keystore : Nat)
  | sentry
  deriving DecidableEq

/-- Arguments of `authority_discovery::new_worker_and_service`: the sentry
list and the derived discovery role. -/
structure AuthorityDiscoveryRec where
  sentries : List Nat
  role : ADRole
  deriving DecidableEq

/-- The `grandpa::Config` built in `new_full` (src/service/src/lib.rs lines
370-378): node name, optional keystore, and the network-authority flag. -/
structure GrandpaConfigRec where
  name : Nat
  keystore : Option Nat
  is_network_authority : Bool
  deriving DecidableEq

/-- Arguments of `grandpa::GrandpaParams` (src/service/src/lib.rs lines
408-417): the config, the finality link, the voting rule, and the shared
voter state. -/
structure GrandpaParamsRec where
  config : GrandpaConfigRec
  link : LinkHalf
  votingRule : VotingRule
  sharedVoterState : Nat
  deriving DecidableEq

/-- What a successful `new_full` handed to each subsystem. -/
structure FullResult where
  importQueue : ImportQueueRec
  importSetupBlockImport : BlockImportNode
  rpcDeps : RpcDeps
  babeParams : Option BabeParamsRec
  authorityDiscovery : Option AuthorityDiscoveryRec
  grandpaConfig : GrandpaConfigRec
  grandpaParams : Option GrandpaParamsRec
  deriving DecidableEq

/-- What a successful `new_light` handed to its import queue. -/
structure LightResult where
  importQueue : ImportQueueRec
  deriving DecidableEq

/-- Embedding of `new_partial` (src/service/src/lib.rs lines 95-217).
Steps, in source order: optional prometheus-registry rewrite (skipped in
test mode), `new_full_parts`, the grandpa block import wrapping the base
storage import, `babe::Config::get_or_compute`, `babe::block_import`
wrapping the grandpa import, and `babe::import_queue` fed with a clone of
the composed babe import, the grandpa import as justification import, no
finality-proof import, and the native-version authorship check.  The
returned aggregate carries the `import_setup` clone of the composed import,
the grandpa link handles, the shared voter state, and the RPC closure's
captured handles. -/
def newPartialComponents (cfg : Configuration) (test : Bool) (env : Env) :
    List Event × Except BuildError PartialComponentsRec :=
  if !test ∧ cfg.prometheusConfig ∧ !env.registryOk then
    ([], .error .registry)
  else if !env.newFullPartsOk then
    ([], .error .newFullParts)
  else if !env.grandpaBlockImportOk then
    ([], .error .grandpaBlockImport)
  else
    let grandpaBlockImport := BlockImportNode.grandpa .base
    let justificationImport := grandpaBlockImport
    let link : LinkHalf :=
      { sharedAuthoritySet := grandpaAuthoritySetId,
        justificationStream := grandpaJustificationStreamId }
    let tr := [Event.constructGrandpaBlockImport]
    if !env.babeConfigOk then
      (tr, .error .babeConfig)
    else if !env.babeBlockImportOk then
      (tr, .error .babeBlockImport)
    else
      let blockImport := BlockImportNode.babe grandpaBlockImport
      let tr := tr ++ [Event.constructBabeBlockImport]
      if !env.importQueueOk then
        (tr, .error .importQueue)
      else
        let tr := tr ++ [Event.constructImportQueue]
        (tr, .ok
          { importQueue :=
              { blockImport := blockImport,
                justificationImport := some justificationImport,
                finalityProofImport := none,
                canAuthorWith := .nativeVersion },
            importSetupBlockImport := blockImport,
            link := link,
            sharedVoterState := sharedVoterStateId,
            rpcDeps :=
              { keystore := keystorePtrId,
                sharedVoterState := sharedVoterStateId,
                sharedAuthoritySet := link.sharedAuthoritySet,
                justificationStream := link.justificationStream } })

/-- Embedding of `new_full` (src/service/src/lib.rs lines 220-434).
After `new_partial`: build the network (import queue moves into it), build
offchain workers when enabled, `spawn_tasks` (RPC server and base tasks),
spawn the BABE authoring task as essential when `role.is_authority()`,
spawn the authority-discovery worker when the role is Authority or Sentry
and discovery is enabled, drop the keystore from the grandpa config unless
`role.is_authority() && !is_collator`, then either spawn the essential
grandpa voter with the installed voting rule (grandpa enabled) or call
`setup_disabled_grandpa`, and finally invoke the network starter. -/
def newFull (cfg : Configuration) (collatingFor : Option Nat)
    (authorityDiscoveryEnabled : Bool) (grandpaPause : Option (Nat × Nat))
    (test : Bool) (env : Env) :
    List Event × Except BuildError FullResult :=
  let isCollator := collatingFor.isSome
  let role := cfg.role
  let is_authority := role.is_authority && !isCollator
  match newPartialComponents cfg test env with
  | (tr, .error e) => (tr, .error e)
  | (tr, .ok parts) =>
    if !env.buildNetworkOk then
      (tr, .error .buildNetwork)
    else
      let tr := tr ++ [Event.buildNetwork]
      let tr := tr ++ (if cfg.offchainWorkerEnabled then [Event.buildOffchainWorkers] else [])
      if !env.spawnTasksOk then
        (tr, .error .spawnTasks)
      else
        let tr := tr ++ [Event.spawnTasks]
        if role.is_authority ∧ !env.startBabeOk then
          (tr, .error .startBabe)
        else
          let babeParams : Option BabeParamsRec :=
            if role.is_authority then
              some { keystore := keystorePtrId,
                     blockImport := parts.importSetupBlockImport,
                     forceAuthoring := cfg.forceAuthoring }
            else none
          let tr := tr ++ (if role.is_authority then [Event.spawn .essential .babe] else [])
          let sentryOrAuthority : Bool :=
            match role with
            | .authority _ => true
            | .sentry _ => true
            | _ => false
          let authorityDiscovery : Option AuthorityDiscoveryRec :=
            if sentryOrAuthority ∧ authorityDiscoveryEnabled then
              some (match role with
                | .authority sentryNodes =>
                    { sentries := sentryNodes, role := .authority keystorePtrId }
                | _ => { sentries := [], role := .sentry })
            else none
          let tr := tr ++
            (if sentryOrAuthority ∧ authorityDiscoveryEnabled then
              [Event.spawn .normal .authorityDiscoveryWorker]
            else [])
          let grandpaConfig : GrandpaConfigRec :=
            { name := cfg.nodeName,
              keystore := if is_authority then some keystorePtrId else none,
              is_network_authority := role.is_network_authority }
          let enableGrandpa := !cfg.disableGrandpa
          if enableGrandpa then
            if !env.runGrandpaVoterOk then
              (tr, .error .runGrandpaVoter)
            else
              let grandpaParams : GrandpaParamsRec :=
                { config := grandpaConfig,
                  link := parts.link,
                  votingRule := installedVotingRule grandpaPause,
                  sharedVoterState := parts.sharedVoterState }
              let tr := tr ++ [Event.spawn .essential .grandpaVoter] ++ [Event.startNetwork]
              (tr, .ok
                { importQueue := parts.importQueue,
                  importSetupBlockImport := parts.importSetupBlockImport,
                  rpcDeps := parts.rpcDeps,
                  babeParams := babeParams,
                  authorityDiscovery := authorityDiscovery,
                  grandpaConfig := grandpaConfig,
                  grandpaParams := some grandpaParams })
          else
            if !env.setupDisabledGrandpaOk then
              (tr, .error .setupDisabledGrandpa)
            else
              let tr := tr ++ [Event.setupDisabledGrandpa] ++ [Event.startNetwork]
              (tr, .ok
                { importQueue := parts.importQueue,
                  importSetupBlockImport := parts.importSetupBlockImport,
                  rpcDeps := parts.rpcDeps,
                  babeParams := babeParams,
                  authorityDiscovery := authorityDiscovery,
                  grandpaConfig := grandpaConfig,
                  grandpaParams := none })

/-- Embedding of `new_light` (src/service/src/lib.rs lines 437-539).
Steps, in source order: prometheus-registry rewrite, `new_light_parts`,
`grandpa::light_block_import` wrapping the base import (also used as the
finality-proof import), `babe::Config::get_or_compute`,
`babe::block_import` wrapping the light grandpa import, and
`babe::import_queue` with no justification import, the light
grandpa import as finality-proof import, and the `NeverCanAuthor` check; then
build the network, optionally build offchain workers, `spawn_tasks`, and
invoke the network starter.  No consensus task is ever spawned. -/
def newLight (cfg : Configuration) (env : Env) :
    List Event × Except BuildError LightResult :=
  if cfg.prometheusConfig ∧ !env.registryOk then
    ([], .error .registry)
  else if !env.newLightPartsOk then
    ([], .error .newLightParts)
  else if !env.lightGrandpaBlockImportOk then
    ([], .error .lightGrandpaBlockImport)
  else
    let grandpaBlockImport := BlockImportNode.lightGrandpa .base
    let finalityProofImport := grandpaBlockImport
    let tr := [Event.constructLightGrandpaBlockImport]
    if !env.babeConfigOk then
      (tr, .error .babeConfig)
    else if !env.babeBlockImportOk then
      (tr, .error .babeBlockImport)
    else
      let babeBlockImport := BlockImportNode.babe grandpaBlockImport
      let tr := tr ++ [Event.constructBabeBlockImport]
      if !env.importQueueOk then
        (tr, .error .importQueue)
      else
        let tr := tr ++ [Event.constructImportQueue]
        let importQueue : ImportQueueRec :=
          { blockImport := babeBlockImport,
            justificationImport := none,
            finalityProofImport := some finalityProofImport,
            canAuthorWith := .neverCanAuthor }
        if !env.buildNetworkOk then
          (tr, .error .buildNetwork)
        else
          let tr := tr ++ [Event.buildNetwork]
          let tr := tr ++ (if cfg.offchainWorkerEnabled then [Event.buildOffchainWorkers] else [])
          if !env.spawnTasksOk then
            (tr, .error .spawnTasks)
          else
            let tr := tr ++ [Event.spawnTasks] ++ [Event.startNetwork]
            (tr, .ok { importQueue := importQueue })

/-- A panic of the embedded Rust code. -/
inductive PanicKind
  | indexOutOfBounds
  deriving DecidableEq

/-- Embedding of the grandpa-pause extraction in the CLI `run` entry point
(src/cli/src/command.rs lines 86-90): an empty `--grandpa-pause` list gives
no pause; otherwise the code indexes elements 0 and 1 of the `Vec`, which
panics with an out-of-bounds index when the list has exactly one element. -/
def cliGrandpaPause (grandpaPauseArg : List Nat) :
    Except PanicKind (Option (Nat × Nat)) :=
  if grandpaPauseArg.isEmpty then
    .ok none
  else
    match grandpaPauseArg[0]?, grandpaPauseArg[1]? with
    | some block, some delay => .ok (some (block, delay))
    | _, _ => .error .indexOutOfBounds

/-- The composed block-import target of a full node: production-seal
(babe) import wrapping finality-justification (grandpa) import wrapping
the base storage import. -/
def composedBlockImport : BlockImportNode := .babe (.grandpa .base)

end AcuityService

namespace AcuityService

/-- Whether any key material remains reachable from the production or voting
subsystem after a full-node bootstrap: the BABE authoring loop was handed the
keystore (it is constructed only with the keystore), or the grandpa voter was
handed a config whose keystore field is `Some`. -/
def keystoreReachable (r : FullResult) : Bool :=
  r.babeParams.isSome ||
    (match r.grandpaParams with
     | some g => g.config.keystore.isSome
     | none => false)

/-- C1: in a full node the composed block-import target (babe import wrapping
grandpa import wrapping the base storage import) is constructed exactly once
(one grandpa-import construction and one babe-import construction in the
whole bootstrap trace), and the import queue and the block-production loop
both receive that same composed value: the import queue's block import, the
`import_setup` block import, and (when the role is an authority) the BABE
params' block import are all equal to `composedBlockImport`. -/
theorem claim_C1 (cfg : Configuration) (collatingFor : Option Nat)
    (adEnabled : Bool) (gp : Option (Nat × Nat)) (test : Bool) :
    (newFull cfg collatingFor adEnabled gp test Env.allOk).1.count .constructBabeBlockImport = 1 ∧
    (newFull cfg collatingFor adEnabled gp test Env.allOk).1.count .constructGrandpaBlockImport = 1 ∧
    (newFull cfg collatingFor adEnabled gp test Env.allOk).2.toOption.map
        (fun r => (r.importQueue.blockImport, r.importSetupBlockImport,
          r.babeParams.map (fun b => b.blockImport))) =
      some (composedBlockImport, composedBlockImport,
        if cfg.role.is_authority then some composedBlockImport else none) := by
  rcases cfg with ⟨role, prom, ocw, dg, fa, nm⟩
  rcases role with _ | _ | obs | s <;> rcases ocw <;> rcases dg <;> rcases adEnabled <;>
    simp [newFull, newPartialComponents, Env.allOk, Role.is_authority,
      Role.is_network_authority, composedBlockImport, Except.toOption]

/-- C2: the voting-pause decision function installed into the finality voter
(`PauseAfterBlockFor block delay` when a pause pair is configured, the
default rule set otherwise) returns Pause exactly when
`block ≤ finalized < block + delay` and Vote otherwise, always Vote with no
pause configured; for the pair (100, 10): decide 99 = Vote,
decide 100 = Pause, decide 109 = Pause, decide 110 = Vote. -/
theorem claim_C2 (block delay finalized : Nat) :
    ((installedVotingRule (some (block, delay))).decide finalized = .pause ↔
      block ≤ finalized ∧ finalized < block + delay) ∧
    (installedVotingRule none).decide finalized = .vote ∧
    (installedVotingRule (some (100, 10))).decide 99 = .vote ∧
    (installedVotingRule (some (100, 10))).decide 100 = .pause ∧
    (installedVotingRule (some (100, 10))).decide 109 = .pause ∧
    (installedVotingRule (some (100, 10))).decide 110 = .vote := by
  refine ⟨?_, rfl, by decide, by decide, by decide, by decide⟩
  simp only [installedVotingRule, VotingRule.decide]
  split_ifs with h <;> simp_all

/-- C3: a full node spawns the BABE block-production task if and only if
`role.is_authority()` is true, and the only BABE spawn is through the
essential-task handle. -/
theorem claim_C3 (cfg : Configuration) (collatingFor : Option Nat)
    (adEnabled : Bool) (gp : Option (Nat × Nat)) (test : Bool) :
    (Event.spawn .essential .babe ∈ (newFull cfg collatingFor adEnabled gp test Env.allOk).1 ↔
      cfg.role.is_authority = true) ∧
    Event.spawn .normal .babe ∉ (newFull cfg collatingFor adEnabled gp test Env.allOk).1 := by
  rcases cfg with ⟨role, prom, ocw, dg, fa, nm⟩
  rcases role with _ | _ | obs | s <;> rcases ocw <;> rcases dg <;> rcases adEnabled <;>
    simp [newFull, newPartialComponents, Env.allOk, Role.is_authority, Role.is_network_authority]

/-- C4: after a full-node bootstrap, key material is reachable from the
production or voting subsystem exactly when the role is authority-capable
(`role.is_authority()`), for every collator argument; and on the repository's
call path (`collating_for = None`) the grandpa config's keystore field is
`Some` exactly when the role is an authority. -/
theorem claim_C4 (cfg : Configuration) (collatingFor : Option Nat)
    (adEnabled : Bool) (gp : Option (Nat × Nat)) (test : Bool) :
    ((newFull cfg collatingFor adEnabled gp test Env.allOk).2.toOption.map keystoreReachable =
      some cfg.role.is_authority) ∧
    ((newFull cfg none adEnabled gp test Env.allOk).2.toOption.map
        (fun r => r.grandpaConfig.keystore.isSome) = some cfg.role.is_authority) := by
  rcases cfg with ⟨role, prom, ocw, dg, fa, nm⟩
  rcases role with _ | _ | obs | s <;> rcases ocw <;> rcases dg <;> rcases adEnabled <;>
    rcases collatingFor with _ | c <;>
    simp [newFull, newPartialComponents, Env.allOk, Role.is_authority,
      Role.is_network_authority, keystoreReachable, Except.toOption]

/-- C5: in both the full-node and the light-node bootstrap, the network
start trigger is the last bootstrap action (last element of the trace, and
it occurs exactly once), and the RPC/service tasks, the production task
(exactly when the role is an authority), the authority-discovery task
(exactly when enabled for an authority or sentry role), and the finality
voter (exactly when grandpa is not disabled) are all spawned in the trace,
hence strictly before the start trigger. -/
theorem claim_C5 (cfg : Configuration) (collatingFor : Option Nat)
    (adEnabled : Bool) (gp : Option (Nat × Nat)) (test : Bool) :
    (newFull cfg collatingFor adEnabled gp test Env.allOk).1.getLast? = some .startNetwork ∧
    (newFull cfg collatingFor adEnabled gp test Env.allOk).1.count .startNetwork = 1 ∧
    Event.spawnTasks ∈ (newFull cfg collatingFor adEnabled gp test Env.allOk).1 ∧
    (Event.spawn .essential .babe ∈ (newFull cfg collatingFor adEnabled gp test Env.allOk).1 ↔
      cfg.role.is_authority = true) ∧
    (Event.spawn .normal .authorityDiscoveryWorker ∈
        (newFull cfg collatingFor adEnabled gp test Env.allOk).1 ↔
      (cfg.role.is_network_authority = true ∧ adEnabled = true)) ∧
    (Event.spawn .essential .grandpaVoter ∈
        (newFull cfg collatingFor adEnabled gp test Env.allOk).1 ↔
      cfg.disableGrandpa = false) ∧
    (newLight cfg Env.allOk).1.getLast? = some .startNetwork ∧
    (newLight cfg Env.allOk).1.count .startNetwork = 1 ∧
    Event.spawnTasks ∈ (newLight cfg Env.allOk).1 := by
  rcases cfg with ⟨role, prom, ocw, dg, fa, nm⟩
  rcases role with _ | _ | obs | s <;> rcases ocw <;> rcases dg <;> rcases adEnabled <;>
    simp [newFull, newLight, newPartialComponents, Env.allOk, Role.is_authority,
      Role.is_network_authority]

/-- C6: a light node never spawns any named consensus task (in particular no
block-production task and no finality-voter task) under any configuration
and any environment, and its import queue is built with the never-author
authorship check, no justification import, and the light grandpa import as
a passive finality-proof-verifying channel. -/
theorem claim_C6 (cfg : Configuration) (env : Env) :
    (∀ k n, Event.spawn k n ∉ (newLight cfg env).1) ∧
    (newLight cfg Env.allOk).2.toOption.map (fun r => r.importQueue) =
      some { blockImport := .babe (.lightGrandpa .base),
             justificationImport := none,
             finalityProofImport := some (.lightGrandpa .base),
             canAuthorWith := .neverCanAuthor } := by
  constructor
  · intro k n
    unfold newLight
    repeat' split
    all_goals simp
  · rcases cfg with ⟨role, prom, ocw, dg, fa, nm⟩
    rcases ocw <;> simp [newLight, Env.allOk, Except.toOption]

/-- C7: a full node spawns the authority-discovery task exactly when the
discovery-enabled argument is true and the role is Authority or Sentry; an
Authority role passes its sentry list through and the discovery role
Authority holding the keystore handle, while a Sentry role passes an empty
sentry list and the discovery role Sentry; all other roles produce no
discovery worker. -/
theorem claim_C7 (cfg : Configuration) (collatingFor : Option Nat)
    (adEnabled : Bool) (gp : Option (Nat × Nat)) (test : Bool) :
    (Event.spawn .normal .authorityDiscoveryWorker ∈
        (newFull cfg collatingFor adEnabled gp test Env.allOk).1 ↔
      (adEnabled = true ∧ cfg.role.is_network_authority = true)) ∧
    ((newFull cfg collatingFor adEnabled gp test Env.allOk).2.toOption.map
        (fun r => r.authorityDiscovery) =
      some (if adEnabled then
              match cfg.role with
              | .authority s => some { sentries := s, role := .authority keystorePtrId }
              | .sentry _ => some { sentries := [], role := .sentry }
              | _ => none
            else none)) := by
  rcases cfg with ⟨role, prom, ocw, dg, fa, nm⟩
  rcases role with _ | _ | obs | s <;> rcases ocw <;> rcases dg <;> rcases adEnabled <;>
    simp [newFull, newPartialComponents, Env.allOk, Role.is_authority,
      Role.is_network_authority, Except.toOption]

/-- C8: on a full node the finality voter is spawned, as an essential task,
exactly when the disable-grandpa flag is not set, in which case its params
carry the voting rule installed from the pause pair, the link's shared
authority set, and the shared voter state; when the flag is set, the
disabled-grandpa fallback is invoked instead, no voter params exist, and
the link's shared authority set and the shared voter state remain held by
the RPC dependency bundle in either case. -/
theorem claim_C8 (cfg : Configuration) (collatingFor : Option Nat)
    (adEnabled : Bool) (gp : Option (Nat × Nat)) (test : Bool) :
    (Event.spawn .essential .grandpaVoter ∈
        (newFull cfg collatingFor adEnabled gp test Env.allOk).1 ↔
      cfg.disableGrandpa = false) ∧
    (Event.setupDisabledGrandpa ∈ (newFull cfg collatingFor adEnabled gp test Env.allOk).1 ↔
      cfg.disableGrandpa = true) ∧
    ((newFull cfg collatingFor adEnabled gp test Env.allOk).2.toOption.map
        (fun r => (r.grandpaParams.map
            (fun g => (g.votingRule, g.link.sharedAuthoritySet, g.sharedVoterState)),
          r.rpcDeps.sharedAuthoritySet, r.rpcDeps.sharedVoterState)) =
      some ((if cfg.disableGrandpa then none
             else some (installedVotingRule gp, grandpaAuthoritySetId, sharedVoterStateId)),
            grandpaAuthoritySetId, sharedVoterStateId)) := by
  rcases cfg with ⟨role, prom, ocw, dg, fa, nm⟩
  rcases role with _ | _ | obs | s <;> rcases ocw <;> rcases dg <;> rcases adEnabled <;>
    simp [newFull, newPartialComponents, Env.allOk, Role.is_authority,
      Role.is_network_authority, Except.toOption]

/-- The trace produced by `new_partial` never contains the network start
trigger: only `new_full` and `new_light` invoke it. -/
theorem startNetwork_not_in_partialTrace (cfg : Configuration) (test : Bool) (env : Env) :
    Event.startNetwork ∉ (newPartialComponents cfg test env).1 := by
  unfold newPartialComponents
  repeat' split
  all_goals simp

set_option maxHeartbeats 2000000 in
/-- C9: for every configuration and every pattern of external-call failures,
the network start trigger has been invoked if and only if the bootstrap
returned successfully; equivalently, whenever any construction step fails,
the entry point returns the error to the caller with the network never
started, so no partially-started node is processing traffic. This holds for
both the full-node and the light-node path. -/
theorem claim_C9 (cfg : Configuration) (collatingFor : Option Nat) (adEnabled : Bool)
    (gp : Option (Nat × Nat)) (test : Bool) (env : Env) :
    (Event.startNetwork ∈ (newFull cfg collatingFor adEnabled gp test env).1 ↔
      ((newFull cfg collatingFor adEnabled gp test env).2.toOption.isSome = true)) ∧
    (Event.startNetwork ∈ (newLight cfg env).1 ↔
      ((newLight cfg env).2.toOption.isSome = true)) := by
  constructor
  · have hpn := startNetwork_not_in_partialTrace cfg test env
    unfold newFull
    split
    next tr e heq =>
      rw [heq] at hpn
      simp at hpn
      simp [hpn, Except.toOption]
    next tr parts heq =>
      rw [heq] at hpn
      simp at hpn
      repeat' split
      all_goals try simp_all [List.mem_append, Except.toOption]
      all_goals repeat' split
      all_goals simp_all [List.mem_append, Except.toOption]
  · unfold newLight
    repeat' split
    all_goals simp_all [List.mem_append, Except.toOption]

/-- C10: in the CLI run entry point, an empty grandpa-pause argument list
yields no pause pair, a list with exactly one element panics with an
out-of-bounds index on element 1 instead of returning an error, and a list
of length at least two yields the pause pair of its first two elements. -/
theorem claim_C10 (b d : Nat) (rest : List Nat) :
    cliGrandpaPause [] = .ok none ∧
    cliGrandpaPause [b] = .error .indexOutOfBounds ∧
    cliGrandpaPause (b :: d :: rest) = .ok (some (b, d)) := by
  refine ⟨rfl, ?_, ?_⟩ <;> simp [cliGrandpaPause]

end AcuityService
